import Mathlib

/-!
Shallow embedding of the rust_snmp repository (SNMP v1 GET codec).

Bytes are modelled as `Nat` values in `0..255` (every byte written by the
code is reduced `% 256` exactly where Rust performs an `as u8` cast or a
fixed-width write).  Signed machine integers read from the wire are
modelled as `Int` via explicit two's-complement interpretation.  Fallible
Rust functions returning `Result<_, SnmpError>` become `Except SnmpError _`.
-/

/-- Big-endian unsigned interpretation of a byte list (most significant first). -/
def beUnsigned (l : List Nat) : Nat :=
  l.foldl (fun acc b => acc * 256 + b) 0

/-- Little-endian unsigned interpretation of a byte list (least significant first),
as performed by byteorder's `LittleEndian::read_int` before sign extension. -/
def leUnsigned (l : List Nat) : Nat :=
  l.foldr (fun b acc => acc * 256 + b) 0

/-- Two's-complement sign interpretation of an unsigned `len`-byte value. -/
def toSigned (len : Nat) (n : Nat) : Int :=
  if 2 * n < 2 ^ (8 * len) then (n : Int) else (n : Int) - 2 ^ (8 * len)

/-- byteorder `LittleEndian::read_int data (data.len())`: little-endian
two's-complement signed read of all bytes (used in types.rs `extract_integer`). -/
def readIntLE (l : List Nat) : Int :=
  toSigned l.length (leUnsigned l)

/-- byteorder `BigEndian::read_int`: big-endian two's-complement signed read. -/
def readIntBE (l : List Nat) : Int :=
  toSigned l.length (beUnsigned l)

/-- Big-endian fixed-width byte serialization (`BigEndian::write_*`): the
`w` bytes of `n % 2^(8*w)`, most significant first. -/
def beBytes : Nat → Nat → List Nat
  | 0, _ => []
  | w + 1, n => (n / 256 ^ w) % 256 :: beBytes w n

/-- Enum `SnmpType` of types.rs (strings kept as their UTF-8 bytes; the
`SnmpObjectID` variant is the one consumed by snmpv1.rs `Message::from_packet`,
spec section 3 `ObjectIdentifier`, holding the raw content bytes). -/
inductive SnmpType where
  | SnmpInteger (value : Int)
  | SnmpString (bytes : List Nat)
  | SnmpNull
  | SnmpObjectID (bytes : List Nat)
  deriving DecidableEq, Repr

/-- Enum `SnmpError` of types.rs / lib.rs (`Io` carries no payload here since
the transported io error is outside the codec; `ResponseError` is the variant
used by snmpv1.rs and spec section 7). -/
inductive SnmpError where
  | PacketTooShort
  | InvalidType
  | ParsingError
  | NotYetImplementedError
  | Io
  | ResponseError (code : Int)
  deriving DecidableEq, Repr

/-- Continuation byte test for UTF-8 validation (0x80..0xBF). -/
def utf8Cont (b : Nat) : Bool :=
  decide (128 ≤ b ∧ b ≤ 191)

/-- UTF-8 validity of a byte list, as checked by Rust's `String::from_utf8`. -/
def utf8Valid : List Nat → Bool
  | [] => true
  | b :: rest =>
    if b ≤ 127 then utf8Valid rest
    else if b < 194 then false
    else if b ≤ 223 then
      match rest with
      | c1 :: r => utf8Cont c1 && utf8Valid r
      | [] => false
    else if b ≤ 239 then
      match rest with
      | c1 :: c2 :: r =>
        (if b = 224 then decide (160 ≤ c1 ∧ c1 ≤ 191)
         else if b = 237 then decide (128 ≤ c1 ∧ c1 ≤ 159)
         else utf8Cont c1) && utf8Cont c2 && utf8Valid r
      | _ => false
    else if b ≤ 244 then
      match rest with
      | c1 :: c2 :: c3 :: r =>
        (if b = 240 then decide (144 ≤ c1 ∧ c1 ≤ 191)
         else if b = 244 then decide (128 ≤ c1 ∧ c1 ≤ 143)
         else utf8Cont c1) && utf8Cont c2 && utf8Cont c3 && utf8Valid r
      | _ => false
    else false

namespace Traits

/-- traits.rs `impl EncodeSnmp for u8`: `[0x02, 0x01, *self]`. -/
def encode_snmp_u8 (v : Nat) : List Nat :=
  [2, 1, v % 256]

/-- traits.rs `impl EncodeSnmp for i16`: tag 2, length 2, big-endian bytes. -/
def encode_snmp_i16 (v : Int) : List Nat :=
  2 :: 2 :: beBytes 2 ((v % 2 ^ 16).toNat)

/-- traits.rs `impl EncodeSnmp for i32`: tag 2, length 4, big-endian bytes. -/
def encode_snmp_i32 (v : Int) : List Nat :=
  2 :: 4 :: beBytes 4 ((v % 2 ^ 32).toNat)

/-- traits.rs `impl EncodeSnmp for u32`: tag 2, length 4, big-endian bytes. -/
def encode_snmp_u32 (v : Nat) : List Nat :=
  2 :: 4 :: beBytes 4 (v % 2 ^ 32)

/-- traits.rs `impl EncodeSnmp for [u8]`: `vec![0x04, self.len() as u8]`
extended with the bytes. -/
def encode_snmp_bytes (s : List Nat) : List Nat :=
  4 :: s.length % 256 :: s

end Traits

namespace Types

/-- types.rs `extract_integer`: errors when the slice has more than 8 or fewer
than 1 bytes, otherwise a LITTLE-endian signed read of the whole slice. -/
def extract_integer (data : List Nat) : Except SnmpError SnmpType :=
  if data.length > 8 ∨ data.length < 1 then .error .ParsingError
  else .ok (.SnmpInteger (readIntLE data))

/-- types.rs `extract_string`: UTF-8 decode of the whole slice. -/
def extract_string (data : List Nat) : Except SnmpError SnmpType :=
  if utf8Valid data then .ok (.SnmpString data) else .error .ParsingError

/-- types.rs `extract_value`: header checks, then dispatch on the tag byte.
Note the code passes `&data[2..]` (ALL remaining bytes, not `length` bytes)
to the per-type extractors. -/
def extract_value : List Nat → Except SnmpError SnmpType
  | datatype :: length :: rest =>
    if rest.length < length then .error .PacketTooShort
    else
      match datatype with
      | 2 => extract_integer rest
      | 4 => extract_string rest
      | 5 => .ok .SnmpNull
      | 6 => .error .NotYetImplementedError
      | 48 => .error .NotYetImplementedError
      | _ => .error .InvalidType
  | _ => .error .PacketTooShort

end Types

/-- Modelled from the spec: the cursor-style TLV decoder consumed by
snmpv1.rs `Message::from_packet` (which calls `extract_value` on a byte
iterator; the slice-based `extract_value` under src/ has an incompatible
signature, so the iterator variant is missing from src/).  Follows spec
section 4.1 Decode: read tag and length, bounds-check the remaining buffer
against `length`, dispatch on the tag (Integer big-endian two's-complement,
failing when `length` is 0 or exceeds 8; String as UTF-8; Null; tag 0x06
ObjectIdentifier retained as raw content bytes; any other tag `InvalidType`),
and consume exactly the header plus `length` content bytes. -/
def extractValueAt : List Nat → Except SnmpError (SnmpType × List Nat)
  | t :: l :: rest =>
    if rest.length < l then .error .PacketTooShort
    else
      let content := rest.take l
      let remaining := rest.drop l
      match t with
      | 2 =>
        if l < 1 ∨ l > 8 then .error .ParsingError
        else .ok (.SnmpInteger (readIntBE content), remaining)
      | 4 =>
        if utf8Valid content then .ok (.SnmpString content, remaining)
        else .error .ParsingError
      | 5 => .ok (.SnmpNull, remaining)
      | 6 => .ok (.SnmpObjectID content, remaining)
      | _ => .error .InvalidType
  | _ => .error .PacketTooShort

namespace Snmpv1

/-- snmpv1.rs `Message`: the retained packet, community and decoded data. -/
structure Message where
  packet : List Nat
  community : List Nat
  data : SnmpType
  deriving DecidableEq, Repr

/-- snmpv1.rs `Message::from_packet` lines 19-27: length check (PacketTooShort)
then the 0x30 flag check (ParsingError); on success the cursor starts at
`packet[2..]`. -/
def checkEnvelope (packet : List Nat) : Except SnmpError (List Nat) :=
  if packet.length < 2 ∨ packet.length - 2 ≠ packet.getD 1 0 then
    .error .PacketTooShort
  else if packet.getD 0 0 ≠ 48 then .error .ParsingError
  else .ok (packet.drop 2)

/-- snmpv1.rs lines 31-35: version field must decode to `SnmpInteger 0`. -/
def parseVersion (c : List Nat) : Except SnmpError (List Nat) := do
  let (v, c) ← extractValueAt c
  match v with
  | .SnmpInteger i => if i ≠ 0 then .error .ParsingError else .ok c
  | _ => .error .ParsingError

/-- snmpv1.rs lines 37-41: the community must decode to a string. -/
def parseCommunity (c : List Nat) : Except SnmpError (List Nat × List Nat) := do
  let (v, c) ← extractValueAt c
  match v with
  | .SnmpString s => .ok (s, c)
  | _ => .error .ParsingError

/-- `iterator.next().ok_or(SnmpError::ParsingError)?`. -/
def nextByte : List Nat → Except SnmpError (Nat × List Nat)
  | [] => .error .ParsingError
  | b :: rest => .ok (b, rest)

/-- Take one byte and require it to equal `b` (snmpv1.rs lines 43-46, 73-76, 81-84). -/
def expectByte (b : Nat) (c : List Nat) : Except SnmpError (List Nat) := do
  let (x, c) ← nextByte c
  if x ≠ b then .error .ParsingError else .ok c

/-- Take one byte and discard it (the unchecked length bytes, lines 48-49, 78-79, 86-87). -/
def skipByte (c : List Nat) : Except SnmpError (List Nat) := do
  let (_, c) ← nextByte c
  .ok c

/-- snmpv1.rs lines 51-55: request id must decode to an integer (value unused). -/
def parseRequestId (c : List Nat) : Except SnmpError (List Nat) := do
  let (v, c) ← extractValueAt c
  match v with
  | .SnmpInteger _ => .ok c
  | _ => .error .ParsingError

/-- snmpv1.rs `Message::from_packet` lines 18-55: everything before the
error-status field — envelope, version, community, 0xA2 PDU tag, PDU length
byte and request id.  Returns the community and the remaining cursor. -/
def parseThroughRequestId (packet : List Nat) :
    Except SnmpError (List Nat × List Nat) := do
  let c ← checkEnvelope packet
  let c ← parseVersion c
  let (community, c) ← parseCommunity c
  let c ← expectByte 162 c
  let c ← skipByte c
  let c ← parseRequestId c
  .ok (community, c)

/-- snmpv1.rs lines 57-71: error-status / error-index field — an integer,
nonzero aborting with `ResponseError(i)`. -/
def parseErrorField (c : List Nat) : Except SnmpError (List Nat) := do
  let (v, c) ← extractValueAt c
  match v with
  | .SnmpInteger i => if i ≠ 0 then .error (.ResponseError i) else .ok c
  | _ => .error .ParsingError

/-- snmpv1.rs `Message::from_packet`: the full response parse. -/
def Message.from_packet (packet : List Nat) : Except SnmpError Message := do
  let (community, c) ← parseThroughRequestId packet
  let c ← parseErrorField c
  let c ← parseErrorField c
  let c ← expectByte 48 c
  let c ← skipByte c
  let c ← expectByte 48 c
  let c ← skipByte c
  let (o, c) ← extractValueAt c
  match o with
  | .SnmpObjectID _ =>
    let (datatype, _) ← extractValueAt c
    .ok ⟨packet, community, datatype⟩
  | _ => .error .ParsingError

/-- snmpv1.rs `Request::createpacket` lines 186-193: the MIB conversion loop
over `mibvals.iter().skip(2)` — a sub-identifier above 127 pushes
`(128 + v/128) as u8` then `(v - (v/128)*128) as u8`, otherwise `v as u8`. -/
def mibBytes (mibvals : List Nat) : List Nat :=
  (mibvals.drop 2).foldl
    (fun mib v =>
      if 127 < v then
        mib ++ [(128 + v / 128) % 256, (v - v / 128 * 128) % 256]
      else mib ++ [v % 256])
    []

/-- The bytes placed in the OID position of the outgoing packet
(snmpv1.rs lines 226-227): the hardcoded leading byte 0x2B followed by the
converted remaining sub-identifiers. -/
def packedOid (mibvals : List Nat) : List Nat :=
  43 :: mibBytes mibvals

/-- snmpv1.rs `Request::createpacket` lines 181-233 (the Rust function always
returns `Ok`, so the model is total): every pushed length byte carries the
`as u8` cast as `% 256`. -/
def createpacket (community mibvals : List Nat) (request_id : Nat) : List Nat :=
  let mib := mibBytes mibvals
  let snmplen := 29 + community.length + mib.length + 2 - 1
  48 :: (snmplen - 2) % 256 ::
  (Traits.encode_snmp_u8 0 ++ Traits.encode_snmp_bytes community ++
   160 :: (19 + mib.length + 2) % 256 ::
   (Traits.encode_snmp_u32 request_id ++
    Traits.encode_snmp_u8 0 ++ Traits.encode_snmp_u8 0 ++
    48 :: (5 + mib.length + 2) % 256 :: 48 :: (3 + mib.length + 2) % 256 ::
    6 :: (mib.length - 1 + 2) % 256 :: 43 :: (mib ++ [5, 0])))

/-- snmpv1.rs `Request`: address, OID sub-identifiers, community, request id
and the (unused) timeout field. -/
structure Request where
  address : List Nat
  mibvals : List Nat
  community : List Nat
  request_id : Nat
  timeout : Nat
  deriving DecidableEq, Repr

/-- `Request::createpacket` reads only community, mibvals and request_id. -/
def Request.createpacket (r : Request) : List Nat :=
  Snmpv1.createpacket r.community r.mibvals r.request_id

/-- What snmpv1.rs `Request::send` (lines 164-179) hands to the UDP transport:
the read timeout in milliseconds (hardcoded `Duration::from_millis(1000)`),
the packet bytes from `createpacket`, and the destination address. -/
def Request.send_observables (r : Request) : Nat × List Nat × List Nat :=
  (1000, r.createpacket, r.address)

end Snmpv1

namespace LibSnmpv1

/-- lib.rs `MessageDataType`. -/
inductive MessageDataType where
  | SnmpInteger
  | SnmpString
  | SnmpNull
  | SnmpObjectID
  | SnmpSequence
  deriving DecidableEq, Repr

/-- lib.rs `snmpv1::Message`. -/
structure Message where
  packet : List Nat
  datatype : MessageDataType
  datalength : Nat
  datastart : Nat
  deriving DecidableEq, Repr

/-- Rust's half-open range `a..b` as the list it iterates (empty when `b ≤ a`). -/
def rustRange (a b : Nat) : List Nat :=
  (List.range (b - a)).map (a + ·)

/-- lib.rs `snmpv1::Message::from_packet` lines 116-153: fixed-offset field
extraction with cumulative length checks. -/
def Message.from_packet (packet : List Nat) : Except SnmpError Message :=
  if packet.length < 26 then .error .PacketTooShort
  else
    let commlength := packet.getD 6 0
    if packet.length < 25 + commlength then .error .PacketTooShort
    else
      let miblength := packet.getD (23 + commlength) 0
      if packet.length < 25 + commlength + miblength then .error .PacketTooShort
      else
        let datatype := packet.getD (24 + commlength + miblength) 0
        let datalength := packet.getD (25 + commlength + miblength) 0
        let datastart := 26 + commlength + miblength
        if packet.length < 26 + commlength + miblength + datalength then
          .error .PacketTooShort
        else
          match datatype with
          | 2 => .ok ⟨packet, .SnmpInteger, datalength, datastart⟩
          | 4 => .ok ⟨packet, .SnmpString, datalength, datastart⟩
          | 5 => .ok ⟨packet, .SnmpNull, datalength, datastart⟩
          | 6 => .ok ⟨packet, .SnmpObjectID, datalength, datastart⟩
          | 48 => .ok ⟨packet, .SnmpSequence, datalength, datastart⟩
          | _ => .error .InvalidType

/-- lib.rs `snmpv1::Message::as_int` lines 176-190: on an Integer message,
accumulate over the range `datalength..0` (the loop body indexes
`packet[datastart + datalength - i]` and multiplies by 128, but the range
`datalength..0` is empty whenever `datalength ≥ 0`). -/
def Message.as_int (m : Message) : Except SnmpError Int :=
  match m.datatype with
  | .SnmpInteger =>
    .ok ((rustRange m.datalength 0).foldl
      (fun value i =>
        value * 128 + (m.packet.getD (m.datastart + m.datalength - i) 0 : Int))
      0)
  | _ => .error .InvalidType

end LibSnmpv1

/-- Specification-side sub-identifier encoding (spec section 4.2): one byte
for a value up to 127, otherwise base-128 digits with the continuation bit,
here in the two-byte form the spec states for values up to 16383. -/
def packSubIds : List Nat → List Nat
  | [] => []
  | v :: rest =>
    (if v ≤ 127 then [v] else [128 + v / 128, v % 128]) ++ packSubIds rest

deriving instance DecidableEq for Except

lemma beUnsigned_append_singleton (xs : List Nat) (b : Nat) :
    beUnsigned (xs ++ [b]) = beUnsigned xs * 256 + b := by
  simp [beUnsigned, List.foldl_append]

lemma leUnsigned_eq_beUnsigned_reverse (l : List Nat) :
    leUnsigned l = beUnsigned l.reverse := by
  induction l with
  | nil => rfl
  | cons b t ih =>
    simp only [leUnsigned, List.foldr_cons, List.reverse_cons,
      beUnsigned_append_singleton]
    rw [← ih]
    rfl

lemma readIntLE_eq_readIntBE_reverse (l : List Nat) :
    readIntLE l = readIntBE l.reverse := by
  simp [readIntLE, readIntBE, List.length_reverse, leUnsigned_eq_beUnsigned_reverse]

/-- C1: TLV round-trip fails on the code.  The SNMP value Integer 1, encoded
by the repository's own i32 encoder (big-endian bytes `[0x02,0x04,0,0,0,1]`),
decodes through `extract_value` to `SnmpInteger 16777216`, not `SnmpInteger 1`,
because types.rs `extract_integer` reads the content little-endian. -/
theorem roundtrip_little_endian_mismatch :
    Types.extract_value (Traits.encode_snmp_i32 1) =
      .ok (.SnmpInteger 16777216) ∧ (16777216 : Int) ≠ 1 := by
  decide

/-- C2 counterexample: for the buffer `[0x02, 0x00, 0x05]` the claim predicts
a `ParsingError` (declared length 0) and that only the declared 0 content
bytes are interpreted; the code instead decodes the full remainder `[0x05]`
and returns `SnmpInteger 5`. -/
theorem integer_decode_ignores_declared_length :
    Types.extract_value [2, 0, 5] = .ok (.SnmpInteger 5) := by
  decide

/-- C2 (amended): for a tag-0x02 buffer that passes the bounds check, the
decoder interprets ALL content bytes after the 2-byte header (not the declared
`length` count) as a LITTLE-endian two's-complement integer — equivalently the
big-endian value of the reversed content — and fails with `ParsingError`
exactly when the number of remaining content bytes is 0 or exceeds 8. -/
theorem extract_integer_semantics :
    (∀ (l : Nat) (rest : List Nat), l ≤ rest.length → 1 ≤ rest.length →
      rest.length ≤ 8 →
      Types.extract_value (2 :: l :: rest) =
        .ok (.SnmpInteger (readIntBE rest.reverse))) ∧
    (∀ (l : Nat) (rest : List Nat), l ≤ rest.length →
      (rest.length = 0 ∨ 8 < rest.length) →
      Types.extract_value (2 :: l :: rest) = .error .ParsingError) := by
  constructor
  · intro l rest h1 h2 h3
    have hnl : ¬(rest.length < l) := by omega
    have hni : ¬(rest.length > 8 ∨ rest.length < 1) := by omega
    simp [Types.extract_value, Types.extract_integer, hnl, hni,
      readIntLE_eq_readIntBE_reverse]
    refine ⟨h3, ?_⟩
    intro he
    subst he
    simp at h2
  · intro l rest h1 h2
    have hnl : ¬(rest.length < l) := by omega
    have hi : rest.length > 8 ∨ rest.length < 1 := by omega
    simp [Types.extract_value, Types.extract_integer, hnl, hi]
    intro h8
    have h0 : rest.length = 0 := by omega
    exact List.length_eq_zero.mp h0

/-- Witness for C2's amended theorem at concrete inputs: `[2,1,1,1]` decodes the
two remaining bytes little-endian to 257, and `[2,0]` (no content) errors. -/
theorem extract_integer_semantics_witness :
    Types.extract_value [2, 1, 1, 1] =
      .ok (.SnmpInteger (readIntBE (List.reverse [1, 1]))) ∧
    Types.extract_value [2, 0] = .error .ParsingError :=
  ⟨extract_integer_semantics.1 1 [1, 1] (by decide) (by decide) (by decide),
   extract_integer_semantics.2 0 [] (by decide) (by decide)⟩

/-- C3: truncation safety of types.rs `extract_value` — a buffer shorter than
2 bytes, or one whose byte count is below the declared length plus the 2-byte
header, fails with `PacketTooShort` (the model is a total function over the
list, so no out-of-bounds access exists on this path). -/
theorem truncation_too_short :
    (∀ data : List Nat, data.length < 2 →
      Types.extract_value data = .error .PacketTooShort) ∧
    (∀ (t l : Nat) (rest : List Nat), (t :: l :: rest).length < l + 2 →
      Types.extract_value (t :: l :: rest) = .error .PacketTooShort) := by
  constructor
  · intro data h
    cases data with
    | nil => rfl
    | cons a t =>
      cases t with
      | nil => rfl
      | cons b r => exact absurd h (by simp [List.length_cons])
  · intro t l rest h
    have hl : rest.length < l := by simp [List.length_cons] at h; omega
    simp only [Types.extract_value]
    rw [if_pos hl]

/-- Witness for C3 at concrete truncated buffers. -/
theorem truncation_too_short_witness :
    Types.extract_value [] = .error .PacketTooShort ∧
    Types.extract_value [2, 5, 1] = .error .PacketTooShort :=
  ⟨truncation_too_short.1 [] (by decide),
   truncation_too_short.2 2 5 [1] (by decide)⟩

lemma exceptBindOk {ε α β : Type} (a : α) (f : α → Except ε β) :
    (Except.ok a : Except ε α) >>= f = f a := rfl

lemma exceptBindError {ε α β : Type} (e : ε) (f : α → Except ε β) :
    (Except.error e : Except ε α) >>= f = Except.error e := rfl

namespace Snmpv1

lemma checkEnvelope_eq_error_short (p : List Nat)
    (h : p.length < 2 ∨ p.length - 2 ≠ p.getD 1 0) :
    checkEnvelope p = .error .PacketTooShort := by
  unfold checkEnvelope
  rw [if_pos h]

lemma checkEnvelope_eq_error_parsing (p : List Nat) (h1 : 2 ≤ p.length)
    (h2 : p.length - 2 = p.getD 1 0) (h3 : p.getD 0 0 ≠ 48) :
    checkEnvelope p = .error .ParsingError := by
  unfold checkEnvelope
  rw [if_neg (by omega), if_pos h3]

/-- C4: once snmpv1.rs `Message::from_packet` has accepted everything up to
the error-status field, a nonzero decoded error-status integer makes the
whole parse abort with `ResponseError` carrying that status, regardless of
the bytes that follow — no `Message` is ever returned. -/
theorem error_status_aborts (packet community c c2 : List Nat) (i : Int)
    (h1 : parseThroughRequestId packet = .ok (community, c))
    (h2 : extractValueAt c = .ok (.SnmpInteger i, c2))
    (h3 : i ≠ 0) :
    Message.from_packet packet = .error (.ResponseError i) := by
  unfold Message.from_packet
  rw [h1]
  simp [parseErrorField, h2, h3, exceptBindOk, exceptBindError]

/-- Witness for C4: a concrete well-formed response prefix whose error-status
is 2 aborts with `ResponseError 2`. -/
theorem error_status_aborts_witness :
    Message.from_packet [48, 13, 2, 1, 0, 4, 0, 162, 0, 2, 1, 0, 2, 1, 2] =
      .error (.ResponseError 2) :=
  error_status_aborts [48, 13, 2, 1, 0, 4, 0, 162, 0, 2, 1, 0, 2, 1, 2]
    [] [2, 1, 2] [] 2 (by decide) (by decide) (by decide)

/-- C5 counterexample: the buffer `[0x00]` has a first byte other than 0x30,
yet `from_packet` fails with `PacketTooShort` (the length check at
snmpv1.rs:20 runs before the 0x30 check at snmpv1.rs:25), not with the
`ParsingError` the claim requires. -/
theorem nonseq_first_byte_packettooshort :
    ([0] : List Nat).getD 0 0 ≠ 48 ∧
    Message.from_packet [0] = .error .PacketTooShort ∧
    (Except.error SnmpError.PacketTooShort : Except SnmpError Message) ≠
      .error .ParsingError := by
  decide

/-- C5 (amended): a buffer whose first byte is not 0x30 fails with
`ParsingError` provided it passes the prior length check (length at least 2
and `packet[1] = length - 2`); in every case such a buffer never yields a
`Message` (buffers failing the length check fail with `PacketTooShort`). -/
theorem envelope_rejection_amended :
    (∀ p : List Nat, 2 ≤ p.length → p.length - 2 = p.getD 1 0 →
      p.getD 0 0 ≠ 48 → Message.from_packet p = .error .ParsingError) ∧
    (∀ (p : List Nat) (m : Message), p.getD 0 0 ≠ 48 →
      Message.from_packet p ≠ .ok m) := by
  constructor
  · intro p h1 h2 h3
    unfold Message.from_packet parseThroughRequestId
    rw [checkEnvelope_eq_error_parsing p h1 h2 h3]
    simp [exceptBindError]
  · intro p m h3 hok
    by_cases hc : p.length < 2 ∨ p.length - 2 ≠ p.getD 1 0
    · unfold Message.from_packet parseThroughRequestId at hok
      rw [checkEnvelope_eq_error_short p hc] at hok
      simp [exceptBindError] at hok
    · unfold Message.from_packet parseThroughRequestId at hok
      rw [checkEnvelope_eq_error_parsing p (by omega) (by omega) h3] at hok
      simp [exceptBindError] at hok

/-- Witness for C5's amended theorem: `[0x31, 0x00]` passes the length check,
has first byte 0x31, and fails with `ParsingError`; `[0x00]` never yields a
`Message`. -/
theorem envelope_rejection_witness :
    Message.from_packet [49, 0] = .error .ParsingError ∧
    Message.from_packet [0] ≠ .ok ⟨[0], [], .SnmpNull⟩ :=
  ⟨envelope_rejection_amended.1 [49, 0] (by decide) (by decide) (by decide),
   envelope_rejection_amended.2 [0] ⟨[0], [], .SnmpNull⟩ (by decide)⟩

end Snmpv1

namespace Snmpv1

/-- C6: the buffer built by snmpv1.rs `Request::createpacket` has its second
byte (the outer SNMP sequence length) equal to the total byte count minus 2,
whenever the outer length fits in one byte. -/
theorem createpacket_outer_length (community mibvals : List Nat)
    (request_id : Nat)
    (h : 28 + community.length + (mibBytes mibvals).length ≤ 255) :
    (createpacket community mibvals request_id).getD 1 0 =
      (createpacket community mibvals request_id).length - 2 := by
  unfold createpacket
  simp only [Traits.encode_snmp_u8, Traits.encode_snmp_bytes,
    Traits.encode_snmp_u32, beBytes, List.getD_cons_succ, List.getD_cons_zero,
    List.length_cons, List.length_append, List.length_nil]
  rw [Nat.mod_eq_of_lt (by omega)]
  omega

/-- Witness for C6: the scenario of spec section 8 — community `"public"`
(bytes of p,u,b,l,i,c), the OID `1.3.6.1.2.1.1.5.0` and request id 1. -/
theorem createpacket_outer_length_witness :
    (createpacket [112, 117, 98, 108, 105, 99] [1, 3, 6, 1, 2, 1, 1, 5, 0]
        1).getD 1 0 =
      (createpacket [112, 117, 98, 108, 105, 99] [1, 3, 6, 1, 2, 1, 1, 5, 0]
        1).length - 2 :=
  createpacket_outer_length [112, 117, 98, 108, 105, 99]
    [1, 3, 6, 1, 2, 1, 1, 5, 0] 1 (by decide)

/-- C7 counterexample: packing the sub-identifier list `[2, 5, 6]` emits the
hardcoded leading byte 0x2B = 43, not `40*2 + 5 = 85` as the claim requires
(the first two sub-identifiers are discarded, snmpv1.rs:186, 226). -/
theorem packedOid_leading_byte_fixed :
    packedOid [2, 5, 6] = [43, 6] ∧ (43 : Nat) ≠ 40 * 2 + 5 := by
  decide

lemma mibBytes_foldl (l : List Nat) (acc : List Nat)
    (hb : ∀ v ∈ l, v ≤ 16383) :
    l.foldl
      (fun mib v =>
        if 127 < v then
          mib ++ [(128 + v / 128) % 256, (v - v / 128 * 128) % 256]
        else mib ++ [v % 256])
      acc = acc ++ packSubIds l := by
  induction l generalizing acc with
  | nil => simp [packSubIds]
  | cons v t ih =>
    have hv : v ≤ 16383 := hb v (by simp)
    have ht : ∀ w ∈ t, w ≤ 16383 := fun w hw => hb w (by simp [hw])
    simp only [List.foldl_cons]
    rw [ih _ ht]
    by_cases h127 : 127 < v
    · have h1 : (128 + v / 128) % 256 = 128 + v / 128 :=
        Nat.mod_eq_of_lt (by omega)
      have h2 : v - v / 128 * 128 = v % 128 := by omega
      have h3 : (v % 128) % 256 = v % 128 := Nat.mod_eq_of_lt (by omega)
      simp [if_pos h127, packSubIds, if_neg (by omega : ¬ v ≤ 127), h1, h2, h3]
    · have hm : v % 256 = v := Nat.mod_eq_of_lt (by omega)
      simp [if_neg h127, packSubIds, if_pos (by omega : v ≤ 127), hm]

/-- C7 (amended): the bytes the builder places in the OID position start with
the FIXED byte 0x2B (which equals `40*X + Y` only for `X = 1, Y = 3`); the
first two sub-identifiers are otherwise discarded, and each remaining
sub-identifier is emitted per the stated one-byte/two-byte base-128 scheme
(sound for values up to 16383). -/
theorem packedOid_amended (mibvals : List Nat)
    (hb : ∀ v ∈ mibvals.drop 2, v ≤ 16383) :
    packedOid mibvals = 43 :: packSubIds (mibvals.drop 2) := by
  unfold packedOid mibBytes
  rw [mibBytes_foldl _ _ hb]
  simp

/-- Witness for C7's amended theorem: the spec scenario OID
`[1,3,6,1,2,1,1,5,0]` packs to 0x2B followed by `6,1,2,1,1,5,0`. -/
theorem packedOid_amended_witness :
    packedOid [1, 3, 6, 1, 2, 1, 1, 5, 0] =
      43 :: packSubIds [6, 1, 2, 1, 1, 5, 0] :=
  packedOid_amended [1, 3, 6, 1, 2, 1, 1, 5, 0] (by decide)

end Snmpv1

/-- C8 counterexample: encoding a 128-byte octet string — content length
larger than 127 — does NOT fail: the codec happily produces a buffer with
length byte 128 (no `EncodingTooLarge` error exists anywhere in the code). -/
theorem encode_oversize_produces_buffer :
    Traits.encode_snmp_bytes (List.replicate 128 97) =
      4 :: 128 :: List.replicate 128 97 ∧ 127 < 128 := by
  constructor
  · simp [Traits.encode_snmp_bytes]
  · decide

/-- C8 (amended): encoding never fails — the primitive byte-string encoder is
total with the length byte reduced modulo 256, and the PDU builder always
returns a complete buffer of `30 + community length + packed-OID length`
bytes; no oversize check or `EncodingTooLarge` error exists. -/
theorem encoding_total_amended :
    (∀ s : List Nat, Traits.encode_snmp_bytes s = 4 :: s.length % 256 :: s) ∧
    (∀ (community mibvals : List Nat) (request_id : Nat),
      (Snmpv1.createpacket community mibvals request_id).length =
        30 + community.length + (Snmpv1.mibBytes mibvals).length) := by
  constructor
  · intro s
    rfl
  · intro community mibvals request_id
    unfold Snmpv1.createpacket
    simp only [Traits.encode_snmp_u8, Traits.encode_snmp_bytes,
      Traits.encode_snmp_u32, beBytes, List.length_cons, List.length_append,
      List.length_nil]
    omega

namespace Snmpv1

/-- C9: the `timeout` field of a `Request` never influences observable
behaviour — `send` always hands the transport a hardcoded 1000 ms read
timeout, and two requests differing only in `timeout` produce identical
transport-visible data (timeout handed down, packet bytes, destination). -/
theorem timeout_no_effect :
    (∀ r : Request, (Request.send_observables r).1 = 1000) ∧
    (∀ r1 r2 : Request, r1.address = r2.address → r1.mibvals = r2.mibvals →
      r1.community = r2.community → r1.request_id = r2.request_id →
      Request.send_observables r1 = Request.send_observables r2) := by
  constructor
  · intro r
    rfl
  · intro r1 r2 h1 h2 h3 h4
    simp [Request.send_observables, Request.createpacket, h1, h2, h3, h4]

/-- Witness for C9: two concrete requests identical except for timeouts 1000
and 9999 yield the same transport observables, with read timeout 1000. -/
theorem timeout_no_effect_witness :
    Request.send_observables ⟨[1], [1, 3, 6], [112], 7, 1000⟩ =
      Request.send_observables ⟨[1], [1, 3, 6], [112], 7, 9999⟩ ∧
    (Request.send_observables ⟨[1], [1, 3, 6], [112], 7, 9999⟩).1 = 1000 :=
  ⟨timeout_no_effect.2 ⟨[1], [1, 3, 6], [112], 7, 1000⟩
      ⟨[1], [1, 3, 6], [112], 7, 9999⟩ rfl rfl rfl rfl,
   timeout_no_effect.1 ⟨[1], [1, 3, 6], [112], 7, 9999⟩⟩

end Snmpv1

namespace LibSnmpv1

/-- C10: for every packet the lib.rs parser accepts as an Integer message,
`as_int` returns `Ok 0` regardless of the content bytes: its accumulation
loop runs over the empty Rust range `datalength..0`. -/
theorem as_int_always_zero (packet : List Nat) (m : Message)
    (_hp : Message.from_packet packet = .ok m)
    (hd : m.datatype = .SnmpInteger) :
    m.as_int = .ok 0 := by
  unfold Message.as_int
  rw [hd]
  simp [rustRange]

/-- Witness for C10: a concrete 26-byte packet with type byte 0x02 at index
24 and nonzero-looking content is accepted, and `as_int` yields 0. -/
theorem as_int_always_zero_witness :
    Message.as_int
      ⟨[0, 0, 0, 0, 0, 0, 0, 0, 0, 0, 0, 0, 0, 0, 0, 0, 0, 0, 0, 0, 0, 0, 0,
        0, 2, 0], .SnmpInteger, 0, 26⟩ = .ok 0 :=
  as_int_always_zero
    [0, 0, 0, 0, 0, 0, 0, 0, 0, 0, 0, 0, 0, 0, 0, 0, 0, 0, 0, 0, 0, 0, 0, 0,
      2, 0]
    ⟨[0, 0, 0, 0, 0, 0, 0, 0, 0, 0, 0, 0, 0, 0, 0, 0, 0, 0, 0, 0, 0, 0, 0, 0,
        2, 0], .SnmpInteger, 0, 26⟩
    (by decide) (by decide)

end LibSnmpv1
